import Mathlib

/-!
Shallow embedding of src/appmetrica_logs_api/client.py (AppMetrica Logs API
client) and proofs about its request assembly and retry protocol.

The repository ships only client.py under src; the auxiliary modules it
imports (constants.py, schemas, exceptions.py) are modelled from the spec
where their content matters, as marked in the doc comments below.
-/

namespace AppmetricaLogsApi

/-- Modelled from the spec: the exceptions module (AppmetricaClientError,
AppmetricaApiError) is not under src. Section 7 of the spec names exactly two
error kinds: ClientError for local and transport problems and ApiError for a
definitive non-success HTTP status carrying the response body as detail. -/
inductive AppmetricaError where
  | clientError (detail : String)
  | apiError (detail : String)
  deriving DecidableEq, Repr

/-- Modelled from the spec: constants.py (class APIResources) is not under
src. Section 4.1 of the spec gives the two built-in registry keys, the
resource names "events" and "installations". -/
def APIResources.EVENTS : String := "events"

/-- Modelled from the spec: second built-in registry key, "installations". -/
def APIResources.INSTALLATIONS : String := "installations"

/-- RESOURCES_SCHEMA from client.py lines 13-16: a mapping from resource name
to its schema. The schema classes (EventsSchema, InstallationsSchema) are not
under src, so the registry is parameterized by their field-name lists
(model_fields.keys() of each schema, in declaration order). -/
def RESOURCES_SCHEMA (eventsFields installationsFields : List String) :
    List (String × List String) :=
  [(APIResources.EVENTS, eventsFields),
   (APIResources.INSTALLATIONS, installationsFields)]

/-- The fixed base endpoint set in AppMetrica.__init__ (client.py line 22). -/
def api_endpoint : String := "https://api.appmetrica.yandex.ru/logs/v1/export"

/-- Python datetime restricted to the six components that the format string
of client.py line 69 reads. -/
structure PyDatetime where
  year : Nat
  month : Nat
  day : Nat
  hour : Nat
  minute : Nat
  second : Nat
  deriving DecidableEq, Repr

/-- Zero padding as Python strftime does for %Y (width 4) and the two-digit
directives. -/
def zfill (width n : Nat) : String :=
  let s := toString n
  if s.length < width then String.mk (List.replicate (width - s.length) '0') ++ s
  else s

/-- datetime.strftime with the format of client.py line 69,
%Y-%m-%d %H:%M:%S. -/
def strftime (d : PyDatetime) : String :=
  zfill 4 d.year ++ "-" ++ zfill 2 d.month ++ "-" ++ zfill 2 d.day ++ " " ++
  zfill 2 d.hour ++ ":" ++ zfill 2 d.minute ++ ":" ++ zfill 2 d.second

/-- dict.pop(key, default) on the kwargs bag, modelled on an association list
whose keys are unique (Python keyword arguments cannot repeat a key): returns
the value stored at the key (or the default) and the bag with that entry
removed. -/
def popKw (key dflt : String) : List (String × String) → String × List (String × String)
  | [] => (dflt, [])
  | (k, v) :: rest =>
    if k = key then (v, rest)
    else
      let r := popKw key dflt rest
      (r.1, (k, v) :: r.2)

/-- dict.pop(key, None): same as popKw but the missing case is None. -/
def popKwOpt (key : String) : List (String × String) → Option String × List (String × String)
  | [] => (none, [])
  | (k, v) :: rest =>
    if k = key then (some v, rest)
    else
      let r := popKwOpt key rest
      (r.1, (k, v) :: r.2)

/-- The header entry contributed by an optional popped header value, as in
client.py lines 82-86: the walrus-if adds the header only when the popped
value is truthy, and Python string truthiness is non-emptiness, so a popped
empty string adds nothing. -/
def headerOf (hname : String) : Option String → List (String × String)
  | some v => if v = "" then [] else [(hname, v)]
  | none => []

/-- The request that AppMetrica.export hands to _make_request: the URL, the
query parameters, the headers built by export (the Authorization header is
added later, inside _make_request), and the export format kept for decoding
the response. -/
structure AssembledRequest where
  url : String
  params : List (String × String)
  headers : List (String × String)
  export_format : String
  deriving DecidableEq, Repr

/-- AppMetrica.export (client.py lines 55-102), the request-assembly part up
to the _make_request call. Mirrors the source order: pop export_format, build
the URL, gate on the registry (raising for any resource outside it), resolve
the field list, pop the two header options (a popped empty string is falsy in
Python, so it produces no header), build params, then apply the date-range
rule. Python raises become Except.error. -/
def exportAssemble (eventsFields installationsFields : List String)
    (resource application_id : String)
    (fields : Option (List String))
    (date_from date_to : Option PyDatetime)
    (kwargs : List (String × String)) :
    Except AppmetricaError AssembledRequest :=
  let p1 := popKw "export_format" "csv" kwargs
  let export_format := p1.1
  let api_url := api_endpoint ++ "/" ++ resource ++ "." ++ export_format
  match (RESOURCES_SCHEMA eventsFields installationsFields).lookup resource with
  | none =>
    .error (.clientError ("Ресурс " ++ resource ++ " не доступен для экспорта."))
  | some regFields =>
    let fieldsStr := match fields with
      | none => String.intercalate "," regFields
      | some fs => String.intercalate "," fs
    let p2 := popKwOpt "cache_control" p1.2
    let p3 := popKwOpt "accept_encoding" p2.2
    let headers := headerOf "Cache-Control" p2.1 ++ headerOf "Accept-Encoding" p3.1
    let params := [("application_id", application_id), ("fields", fieldsStr)] ++ p3.2
    if resource = "profiles" ∨ resource = "push_tokens" then
      .ok ⟨api_url, params, headers, export_format⟩
    else
      match date_from, date_to with
      | some df, some dtv =>
        .ok ⟨api_url,
             params ++ [("date_since", strftime df), ("date_until", strftime dtv)],
             headers, export_format⟩
      | _, _ =>
        .error (.clientError ("Для ресурса " ++ resource ++
          " требуется указать диапазон дат - параметры date_from и date_to"))

/-- headers.update with the Authorization header, as _make_request does on
client.py lines 36-38 before entering the loop. export never puts an
Authorization key in headers, so dict.update appends a fresh entry. -/
def make_request_headers (app_token : String)
    (headers : List (String × String)) : List (String × String) :=
  headers ++ [("Authorization", "OAuth " ++ app_token)]

/-- base_delay of _make_request (client.py line 34), in seconds. -/
def base_delay : Nat := 10

/-- The sleep argument of client.py line 49: base_delay * 2 ^ retry_count.
In Python the caret is bitwise XOR and binds looser than *, so this is
(10 * 2) XOR retry_count, not an exponential. -/
def backoffDelay (retry_count : Nat) : Nat :=
  Nat.xor (base_delay * 2) retry_count

/-- One observable interaction of the loop body of _make_request with the
network: either an HTTP response with a status code and a body, or a
transport-level connection failure (requests.exceptions.ConnectionError). -/
inductive HttpEvent where
  | response (status : Nat) (body : String)
  | connFailure
  deriving DecidableEq, Repr

/-- The way a run of the _make_request loop ends: a returned 200 body, a
raised error, or pending (the finite event trace was exhausted while the
server still reported 201/202, where the real loop would keep polling). The
transport case models raise AppmetricaClientError(ConnectionError) from
client.py line 53, whose detail is the ConnectionError class itself. -/
inductive ExecOutcome where
  | success (body : String)
  | failure (e : AppmetricaError)
  | pending
  deriving DecidableEq, Repr

/-- The while-True loop of _make_request (client.py lines 40-53), run against
a finite trace of network events. Returns the outcome, the list of sleep
durations in order, and the number of requests issued. A 200 returns the
body at once; 201/202 increments retry_count, sleeps backoffDelay
retry_count, and re-issues the request; any other status raises
AppmetricaApiError with the body; a connection failure raises
AppmetricaClientError. -/
def runLoop (retry_count : Nat) : List HttpEvent → ExecOutcome × List Nat × Nat
  | [] => (.pending, [], 0)
  | .connFailure :: _ => (.failure (.clientError "ConnectionError"), [], 1)
  | .response s b :: rest =>
    if s = 200 then (.success b, [], 1)
    else if s = 201 ∨ s = 202 then
      let rc := retry_count + 1
      let r := runLoop rc rest
      (r.1, backoffDelay rc :: r.2.1, r.2.2 + 1)
    else (.failure (.apiError b), [], 1)

/-- The decode step of export (client.py lines 104-107): response.text for
csv, response.json() otherwise. The json constructor records that the branch
hands the body to the JSON parser of the requests library, which is outside
this repository. -/
inductive ExportOutput where
  | text (body : String)
  | json (body : String)
  deriving DecidableEq, Repr

/-- Decode the response body according to export_format, as client.py lines
104-107 do. -/
def decodeResponse (export_format body : String) : ExportOutput :=
  if export_format = "csv" then .text body else .json body

/-- Sample field lists, used only to instantiate theorems at concrete inputs;
the genuine schema field sets live in schema modules outside src and their
exact content does not matter for any claim. -/
def sampleEventsFields : List String :=
  ["event_name", "event_datetime", "appmetrica_device_id"]

/-- Second sample field list for concrete instantiations. -/
def sampleInstallationsFields : List String :=
  ["install_datetime", "appmetrica_device_id"]

/-- Sample start of a date interval for concrete instantiations. -/
def sampleDateFrom : PyDatetime := ⟨2024, 1, 2, 3, 4, 5⟩

/-- Sample end of a date interval for concrete instantiations. -/
def sampleDateTo : PyDatetime := ⟨2024, 1, 31, 23, 59, 59⟩

/-- The kwargs entries left over after export pops export_format,
cache_control and accept_encoding; exactly these are passed through as extra
query parameters. -/
def remainingKwargs (kw : List (String × String)) : List (String × String) :=
  (popKwOpt "accept_encoding"
    (popKwOpt "cache_control" (popKw "export_format" "csv" kw).2).2).2

/-- The header set export builds from kwargs, before _make_request adds the
Authorization entry. -/
def optionHeaders (kw : List (String × String)) : List (String × String) :=
  headerOf "Cache-Control"
    (popKwOpt "cache_control" (popKw "export_format" "csv" kw).2).1 ++
  headerOf "Accept-Encoding"
    (popKwOpt "accept_encoding"
      (popKwOpt "cache_control" (popKw "export_format" "csv" kw).2).2).1



theorem popKw_snd_sublist (key dflt : String) (l : List (String × String)) :
    (popKw key dflt l).2.Sublist l := by
  induction l with
  | nil => simp [popKw]
  | cons kv rest ih =>
    obtain ⟨k, v⟩ := kv
    by_cases h : k = key
    · simp [popKw, h]
    · simpa [popKw, h] using ih.cons₂ (k, v)

theorem popKwOpt_snd_sublist (key : String) (l : List (String × String)) :
    (popKwOpt key l).2.Sublist l := by
  induction l with
  | nil => simp [popKwOpt]
  | cons kv rest ih =>
    obtain ⟨k, v⟩ := kv
    by_cases h : k = key
    · simp [popKwOpt, h]
    · simpa [popKwOpt, h] using ih.cons₂ (k, v)

theorem mem_popKw_snd_iff (key dflt k v : String) (l : List (String × String))
    (hk : k ≠ key) : (k, v) ∈ (popKw key dflt l).2 ↔ (k, v) ∈ l := by
  induction l with
  | nil => simp [popKw]
  | cons kv rest ih =>
    obtain ⟨k2, v2⟩ := kv
    by_cases h : k2 = key
    · subst h
      simp only [popKw, if_pos rfl]
      constructor
      · exact fun hm => List.mem_cons_of_mem _ hm
      · intro hm
        rcases List.mem_cons.mp hm with heq | hm2
        · exact absurd (congrArg Prod.fst heq) hk
        · exact hm2
    · simp only [popKw, if_neg h]
      constructor
      · intro hm
        rcases List.mem_cons.mp hm with heq | hm2
        · exact heq ▸ List.mem_cons_self _ _
        · exact List.mem_cons_of_mem _ (ih.mp hm2)
      · intro hm
        rcases List.mem_cons.mp hm with heq | hm2
        · exact heq ▸ List.mem_cons_self _ _
        · exact List.mem_cons_of_mem _ (ih.mpr hm2)

theorem mem_popKwOpt_snd_iff (key k v : String) (l : List (String × String))
    (hk : k ≠ key) : (k, v) ∈ (popKwOpt key l).2 ↔ (k, v) ∈ l := by
  induction l with
  | nil => simp [popKwOpt]
  | cons kv rest ih =>
    obtain ⟨k2, v2⟩ := kv
    by_cases h : k2 = key
    · subst h
      simp only [popKwOpt, if_pos rfl]
      constructor
      · exact fun hm => List.mem_cons_of_mem _ hm
      · intro hm
        rcases List.mem_cons.mp hm with heq | hm2
        · exact absurd (congrArg Prod.fst heq) hk
        · exact hm2
    · simp only [popKwOpt, if_neg h]
      constructor
      · intro hm
        rcases List.mem_cons.mp hm with heq | hm2
        · exact heq ▸ List.mem_cons_self _ _
        · exact List.mem_cons_of_mem _ (ih.mp hm2)
      · intro hm
        rcases List.mem_cons.mp hm with heq | hm2
        · exact heq ▸ List.mem_cons_self _ _
        · exact List.mem_cons_of_mem _ (ih.mpr hm2)

theorem popKwOpt_key_not_mem_snd (key : String) (l : List (String × String))
    (hnd : (l.map Prod.fst).Nodup) (v : String) :
    (key, v) ∉ (popKwOpt key l).2 := by
  induction l with
  | nil => simp [popKwOpt]
  | cons kv rest ih =>
    obtain ⟨k2, v2⟩ := kv
    simp only [List.map_cons, List.nodup_cons] at hnd
    by_cases h : k2 = key
    · subst h
      simp only [popKwOpt, if_pos rfl]
      intro hm
      exact hnd.1 (List.mem_map.mpr ⟨(k2, v), hm, rfl⟩)
    · simp only [popKwOpt, if_neg h]
      intro hm
      rcases List.mem_cons.mp hm with heq | hm2
      · exact h (congrArg Prod.fst heq).symm
      · exact ih hnd.2 hm2

theorem popKw_key_not_mem_snd (key dflt : String) (l : List (String × String))
    (hnd : (l.map Prod.fst).Nodup) (v : String) :
    (key, v) ∉ (popKw key dflt l).2 := by
  induction l with
  | nil => simp [popKw]
  | cons kv rest ih =>
    obtain ⟨k2, v2⟩ := kv
    simp only [List.map_cons, List.nodup_cons] at hnd
    by_cases h : k2 = key
    · subst h
      simp only [popKw, if_pos rfl]
      intro hm
      exact hnd.1 (List.mem_map.mpr ⟨(k2, v), hm, rfl⟩)
    · simp only [popKw, if_neg h]
      intro hm
      rcases List.mem_cons.mp hm with heq | hm2
      · exact h (congrArg Prod.fst heq).symm
      · exact ih hnd.2 hm2

theorem popKwOpt_fst_some_iff (key : String) (l : List (String × String))
    (hnd : (l.map Prod.fst).Nodup) (v : String) :
    (popKwOpt key l).1 = some v ↔ (key, v) ∈ l := by
  induction l with
  | nil => simp [popKwOpt]
  | cons kv rest ih =>
    obtain ⟨k2, v2⟩ := kv
    simp only [List.map_cons, List.nodup_cons] at hnd
    by_cases h : k2 = key
    · subst h
      simp only [popKwOpt, if_pos, Option.some.injEq, List.mem_cons, Prod.mk.injEq,
        true_and]
      constructor
      · exact fun hv => Or.inl hv.symm
      · rintro (rfl | hm2)
        · rfl
        · exact absurd (List.mem_map.mpr ⟨(k2, v), hm2, rfl⟩) hnd.1
    · simp only [popKwOpt, if_neg h]
      rw [ih hnd.2]
      constructor
      · exact fun hm => List.mem_cons_of_mem _ hm
      · intro hm
        rcases List.mem_cons.mp hm with heq | hm2
        · exact absurd (congrArg Prod.fst heq).symm h
        · exact hm2

theorem popKw_not_mem (key dflt : String) (l : List (String × String))
    (h : key ∉ l.map Prod.fst) : popKw key dflt l = (dflt, l) := by
  induction l with
  | nil => simp [popKw]
  | cons kv rest ih =>
    obtain ⟨k2, v2⟩ := kv
    simp only [List.map_cons, List.mem_cons] at h
    push_neg at h
    simp [popKw, Ne.symm h.1, ih h.2]

/-- Unfolding equation for exportAssemble on a registered resource: once the
registry lookup succeeds, the call is determined by the profiles/push_tokens
test and the date options. -/
theorem exportAssemble_eq_of_lookup (ef inf : List String) (res appid : String)
    (flds : Option (List String)) (df dt : Option PyDatetime)
    (kw : List (String × String)) (regFields : List String)
    (hlk : (RESOURCES_SCHEMA ef inf).lookup res = some regFields) :
    exportAssemble ef inf res appid flds df dt kw =
      if res = "profiles" ∨ res = "push_tokens" then
        Except.ok
          ⟨api_endpoint ++ "/" ++ res ++ "." ++ (popKw "export_format" "csv" kw).1,
           ("application_id", appid) ::
             ("fields", String.intercalate "," (flds.getD regFields)) ::
             remainingKwargs kw,
           optionHeaders kw, (popKw "export_format" "csv" kw).1⟩
      else
        match df, dt with
        | some d1, some d2 =>
          Except.ok
            ⟨api_endpoint ++ "/" ++ res ++ "." ++ (popKw "export_format" "csv" kw).1,
             (("application_id", appid) ::
               ("fields", String.intercalate "," (flds.getD regFields)) ::
               remainingKwargs kw) ++
               [("date_since", strftime d1), ("date_until", strftime d2)],
             optionHeaders kw, (popKw "export_format" "csv" kw).1⟩
        | _, _ =>
          Except.error (.clientError ("Для ресурса " ++ res ++
            " требуется указать диапазон дат - параметры date_from и date_to")) := by
  cases flds with
  | none =>
    simp only [exportAssemble, hlk, remainingKwargs, optionHeaders, Option.getD]
    rfl
  | some fs =>
    simp only [exportAssemble, hlk, remainingKwargs, optionHeaders, Option.getD]
    rfl

/-- Unfolding equation for exportAssemble on an unregistered resource: the
registry gate raises before anything else is examined. -/
theorem exportAssemble_eq_of_lookup_none (ef inf : List String) (res appid : String)
    (flds : Option (List String)) (df dt : Option PyDatetime)
    (kw : List (String × String))
    (hlk : (RESOURCES_SCHEMA ef inf).lookup res = none) :
    exportAssemble ef inf res appid flds df dt kw =
      .error (.clientError ("Ресурс " ++ res ++ " не доступен для экспорта.")) := by
  simp only [exportAssemble, hlk]

/-- Shape of any successfully assembled request: the resource is registered,
the URL, params, headers and format are fully determined by the inputs, and
the params end in either nothing or the two formatted date entries. -/
theorem exportAssemble_ok_shape (ef inf : List String) (res appid : String)
    (flds : Option (List String)) (df dt : Option PyDatetime)
    (kw : List (String × String)) (req : AssembledRequest)
    (hok : exportAssemble ef inf res appid flds df dt kw = .ok req) :
    ∃ regFields datePart,
      (RESOURCES_SCHEMA ef inf).lookup res = some regFields ∧
      req = ⟨api_endpoint ++ "/" ++ res ++ "." ++ (popKw "export_format" "csv" kw).1,
             ("application_id", appid) ::
               ("fields", String.intercalate "," (flds.getD regFields)) ::
               (remainingKwargs kw ++ datePart),
             optionHeaders kw, (popKw "export_format" "csv" kw).1⟩ ∧
      (datePart = [] ∨ ∃ d1 d2, df = some d1 ∧ dt = some d2 ∧
        datePart = [("date_since", strftime d1), ("date_until", strftime d2)]) := by
  cases hlk : (RESOURCES_SCHEMA ef inf).lookup res with
  | none =>
    rw [exportAssemble_eq_of_lookup_none ef inf res appid flds df dt kw hlk] at hok
    exact Except.noConfusion hok
  | some regFields =>
    rw [exportAssemble_eq_of_lookup ef inf res appid flds df dt kw regFields hlk] at hok
    refine ⟨regFields, ?_⟩
    split at hok
    · rw [Except.ok.injEq] at hok
      refine ⟨[], rfl, ?_, Or.inl rfl⟩
      rw [← hok]
      simp
    · split at hok
      · rw [Except.ok.injEq] at hok
        refine ⟨_, rfl, ?_, Or.inr ⟨_, _, rfl, rfl, rfl⟩⟩
        rw [← hok]
        rfl
      · exact Except.noConfusion hok

/-- Membership in the header entry built from a popped option, for the same
header name: holds exactly when the popped value is that value and truthy. -/
theorem mem_headerOf_self_iff (hname v : String) (o : Option String) :
    (hname, v) ∈ headerOf hname o ↔ o = some v ∧ v ≠ "" := by
  cases o with
  | none => simp [headerOf]
  | some w =>
    simp only [headerOf, Option.some.injEq]
    by_cases hw : w = ""
    · subst hw
      rw [if_pos rfl]
      simp only [List.not_mem_nil, false_iff]
      rintro ⟨rfl, h⟩
      exact h rfl
    · rw [if_neg hw]
      simp only [List.mem_singleton, Prod.mk.injEq, true_and]
      constructor
      · rintro rfl
        exact ⟨rfl, hw⟩
      · rintro ⟨rfl, h⟩
        rfl

/-- A header entry built for one header name never contains a pair keyed by a
different header name. -/
theorem not_mem_headerOf_of_ne (hname other v : String) (h : hname ≠ other)
    (o : Option String) : (hname, v) ∉ headerOf other o := by
  cases o with
  | none => simp [headerOf]
  | some w =>
    by_cases hw : w = ""
    · simp [headerOf, hw]
    · simp only [headerOf, if_neg hw, List.mem_singleton, Prod.mk.injEq]
      rintro ⟨rfl, rfl⟩
      exact h rfl

/-- C1 as stated is false on the code: with the unregistered resource
"clicks" and an explicit non-empty field list, export still hard-fails with a
ClientError, so registry membership gates request assembly, not just
defaulting. -/
theorem c1_explicit_fields_counterexample :
    exportAssemble sampleEventsFields sampleInstallationsFields "clicks" "app1"
      (some ["a", "b"]) none none [] =
      .error (.clientError "Ресурс clicks не доступен для экспорта.") := by rfl

/-- C1 (amended): for every call to export with a resource that is not a key
of the Resource Schema Registry, the call fails with a ClientError naming the
resource, regardless of whether an explicit field list was supplied; registry
membership gates the whole request assembly, not only implicit field
defaulting. -/
theorem c1_unregistered_resource_always_fails (ef inf : List String)
    (res appid : String) (flds : Option (List String))
    (df dt : Option PyDatetime) (kw : List (String × String))
    (hlk : (RESOURCES_SCHEMA ef inf).lookup res = none) :
    exportAssemble ef inf res appid flds df dt kw =
      .error (.clientError ("Ресурс " ++ res ++ " не доступен для экспорта.")) :=
  exportAssemble_eq_of_lookup_none ef inf res appid flds df dt kw hlk

/-- Witness for C1 (amended) at a concrete input. -/
theorem c1_unregistered_resource_always_fails_witness :
    exportAssemble sampleEventsFields sampleInstallationsFields "stats" "app1"
      (some ["f1"]) none none [] =
      .error (.clientError "Ресурс stats не доступен для экспорта.") :=
  c1_unregistered_resource_always_fails sampleEventsFields sampleInstallationsFields
    "stats" "app1" (some ["f1"]) none none [] rfl

/-- C2 as stated is false on the code: export with resource "profiles" and no
dates raises a ClientError (the registry gate), so request assembly does not
succeed. -/
theorem c2_profiles_counterexample :
    exportAssemble sampleEventsFields sampleInstallationsFields "profiles" "app1"
      none none none [] =
      .error (.clientError "Ресурс profiles не доступен для экспорта.") := by rfl

/-- C2 (amended): for resources "profiles" and "push_tokens" the date-range
rule is never reached: every export call on them fails with the registry
ClientError, because neither is a key of RESOURCES_SCHEMA; in particular no
date_since/date_until parameters are ever attached for them. -/
theorem c2_profiles_push_tokens_rejected (ef inf : List String) (appid : String)
    (flds : Option (List String)) (df dt : Option PyDatetime)
    (kw : List (String × String)) :
    exportAssemble ef inf "profiles" appid flds df dt kw =
      .error (.clientError "Ресурс profiles не доступен для экспорта.") ∧
    exportAssemble ef inf "push_tokens" appid flds df dt kw =
      .error (.clientError "Ресурс push_tokens не доступен для экспорта.") := by
  constructor <;> rfl

/-- C3: the backoff of the 201/202 retry loop is not strictly increasing. A
server answering 202, 202, 200 does produce exactly two sleeps of 21 and 22
seconds (the second greater than the first), but the sleep argument is
base_delay * 2 ^ retry_count with the Python caret, i.e. 20 XOR retry_count,
so four preparing responses sleep 21, 22, 23, 16 seconds and the fourth
interval is strictly smaller than the third, contradicting both the claim and
the comment in the code that the delay grows with every attempt. -/
theorem c3_backoff_sequence :
    (runLoop 0 [.response 202 "", .response 202 "", .response 200 "ready"]) =
      (.success "ready", [21, 22], 3) ∧
    (runLoop 0 [.response 202 "", .response 202 "", .response 202 "",
        .response 202 "", .response 200 "ready"]) =
      (.success "ready", [21, 22, 23, 16], 5) ∧
    backoffDelay 4 < backoffDelay 3 := by
  refine ⟨?_, ?_, ?_⟩ <;> decide

/-- C4 as stated is false on the code: for the unregistered resource
"conversions" (not profiles/push_tokens) with BOTH dates present, export
fails at the registry gate and no date parameters are attached. -/
theorem c4_unregistered_dates_counterexample :
    exportAssemble sampleEventsFields sampleInstallationsFields "conversions" "app1"
      none (some sampleDateFrom) (some sampleDateTo) [] =
      .error (.clientError "Ресурс conversions не доступен для экспорта.") := by rfl

/-- C4 (amended): for every call to export with a resource not in
(profiles, push_tokens): if date_from or date_to is absent the call fails
with a ClientError before any network request is issued; if both are present
AND the resource is registered, each is formatted yyyy-MM-dd HH:mm:ss and
attached as the date_since and date_until query parameters (an unregistered
resource fails with the registry ClientError even when both dates are
present). -/
theorem c4_date_range_rule (ef inf : List String) (res appid : String)
    (flds : Option (List String)) (df dt : Option PyDatetime)
    (kw : List (String × String))
    (hp : res ≠ "profiles") (ht : res ≠ "push_tokens") :
    ((df = none ∨ dt = none) →
      ∃ m, exportAssemble ef inf res appid flds df dt kw =
        .error (.clientError m)) ∧
    (∀ d1 d2 regFields, df = some d1 → dt = some d2 →
      (RESOURCES_SCHEMA ef inf).lookup res = some regFields →
      ∃ req, exportAssemble ef inf res appid flds df dt kw = .ok req ∧
        ("date_since", strftime d1) ∈ req.params ∧
        ("date_until", strftime d2) ∈ req.params) := by
  have hif : ¬(res = "profiles" ∨ res = "push_tokens") := by
    rintro (h | h)
    · exact hp h
    · exact ht h
  constructor
  · intro hd
    cases hlk : (RESOURCES_SCHEMA ef inf).lookup res with
    | none =>
      exact ⟨_, exportAssemble_eq_of_lookup_none ef inf res appid flds df dt kw hlk⟩
    | some regFields =>
      rw [exportAssemble_eq_of_lookup ef inf res appid flds df dt kw regFields hlk,
        if_neg hif]
      rcases hd with rfl | rfl
      · cases dt <;> exact ⟨_, rfl⟩
      · cases df <;> exact ⟨_, rfl⟩
  · rintro d1 d2 regFields rfl rfl hlk
    rw [exportAssemble_eq_of_lookup ef inf res appid flds (some d1) (some d2) kw
      regFields hlk, if_neg hif]
    refine ⟨_, rfl, ?_, ?_⟩ <;> simp

/-- Witness for C4 (amended) at concrete inputs: a registered resource with
no dates fails with a ClientError, and with both dates present the formatted
date parameters are attached. -/
theorem c4_date_range_rule_witness :
    (∃ m, exportAssemble sampleEventsFields sampleInstallationsFields "events" "app1"
        none none none [] = .error (.clientError m)) ∧
    (∃ req, exportAssemble sampleEventsFields sampleInstallationsFields "events" "app1"
        none (some sampleDateFrom) (some sampleDateTo) [] = .ok req ∧
      ("date_since", strftime sampleDateFrom) ∈ req.params ∧
      ("date_until", strftime sampleDateTo) ∈ req.params) := by
  constructor
  · exact (c4_date_range_rule sampleEventsFields sampleInstallationsFields "events"
      "app1" none none none [] (by decide) (by decide)).1 (Or.inl rfl)
  · exact (c4_date_range_rule sampleEventsFields sampleInstallationsFields "events"
      "app1" none (some sampleDateFrom) (some sampleDateTo) [] (by decide)
      (by decide)).2 sampleDateFrom sampleDateTo sampleEventsFields rfl rfl rfl

/-- C5: the request executor is a state machine over status codes: a 200 is
returned immediately as terminal success with no sleep and a single request,
and any status outside (200, 201, 202) terminally raises an ApiError carrying
the response body, with no retry attempted (the rest of the trace is never
consumed). -/
theorem c5_executor_status_codes (rc : Nat) (rest : List HttpEvent)
    (body : String) (s : Nat) :
    runLoop rc (.response 200 body :: rest) = (.success body, [], 1) ∧
    (s ≠ 200 → s ≠ 201 → s ≠ 202 →
      runLoop rc (.response s body :: rest) =
        (.failure (.apiError body), [], 1)) := by
  constructor
  · simp [runLoop]
  · intro h1 h2 h3
    simp [runLoop, h1, h2, h3]

/-- Witness for C5 at concrete inputs: a 200 body is returned at once, and a
403 with body "forbidden" raises an ApiError containing "forbidden" with one
request and no sleep. -/
theorem c5_executor_status_codes_witness :
    runLoop 0 [.response 200 "a,b\n1,2"] = (.success "a,b\n1,2", [], 1) ∧
    runLoop 0 [.response 403 "forbidden"] =
      (.failure (.apiError "forbidden"), [], 1) :=
  ⟨(c5_executor_status_codes 0 [] "a,b\n1,2" 403).1,
   (c5_executor_status_codes 0 [] "forbidden" 403).2 (by decide) (by decide)
     (by decide)⟩

/-- C6: a transport-level connection failure at any point of the retry loop
terminally raises a ClientError wrapping the ConnectionError, with exactly
one request issued, no sleep, and no retry attempted (the rest of the trace
is never consumed). -/
theorem c6_transport_failure_terminal (rc : Nat) (rest : List HttpEvent) :
    runLoop rc (.connFailure :: rest) =
      (.failure (.clientError "ConnectionError"), [], 1) := by
  simp [runLoop]

/-- C7 as stated is false on the code: an explicit fields list on the
unregistered resource "sessions" does not override anything — the call fails
with the registry ClientError and no fields parameter is assembled. -/
theorem c7_explicit_fields_unregistered_counterexample :
    exportAssemble sampleEventsFields sampleInstallationsFields "sessions" "app1"
      (some ["a", "b"]) (some sampleDateFrom) (some sampleDateTo) [] =
      .error (.clientError "Ресурс sessions не доступен для экспорта.") := by rfl

/-- C7 (amended): for every registered resource, whenever a request is
assembled its fields query parameter (the second entry of params) is the
explicit fields list comma-joined when one was supplied, and otherwise the
full registered field set comma-joined in registry order; an unregistered
resource fails with a ClientError even when an explicit fields list is
supplied. -/
theorem c7_field_resolution (ef inf : List String) (res appid : String)
    (flds : Option (List String)) (df dt : Option PyDatetime)
    (kw : List (String × String)) :
    (∀ regFields req, (RESOURCES_SCHEMA ef inf).lookup res = some regFields →
      exportAssemble ef inf res appid flds df dt kw = .ok req →
      req.params.get? 1 =
        some ("fields", String.intercalate "," (flds.getD regFields))) ∧
    ((RESOURCES_SCHEMA ef inf).lookup res = none →
      exportAssemble ef inf res appid flds df dt kw =
        .error (.clientError ("Ресурс " ++ res ++ " не доступен для экспорта."))) := by
  constructor
  · intro regFields req hlk hok
    obtain ⟨regFields2, datePart, hlk2, rfl, hd⟩ :=
      exportAssemble_ok_shape ef inf res appid flds df dt kw req hok
    rw [hlk] at hlk2
    rw [Option.some.injEq] at hlk2
    rw [hlk2]
    rfl
  · exact exportAssemble_eq_of_lookup_none ef inf res appid flds df dt kw

/-- Witness for C7 (amended) at concrete inputs: an explicit list overrides
the registry on a registered resource, defaulting uses the full registered
set in order, and an unregistered resource is rejected. -/
theorem c7_field_resolution_witness :
    (∃ req, exportAssemble sampleEventsFields sampleInstallationsFields "events"
        "app1" (some ["custom_field"]) (some sampleDateFrom) (some sampleDateTo)
        [] = .ok req ∧
      req.params.get? 1 = some ("fields", "custom_field")) ∧
    (∃ req, exportAssemble sampleEventsFields sampleInstallationsFields "events"
        "app1" none (some sampleDateFrom) (some sampleDateTo) [] = .ok req ∧
      req.params.get? 1 =
        some ("fields", "event_name,event_datetime,appmetrica_device_id")) := by
  constructor
  · refine ⟨_, rfl, ?_⟩
    exact (c7_field_resolution sampleEventsFields sampleInstallationsFields "events"
      "app1" (some ["custom_field"]) (some sampleDateFrom) (some sampleDateTo)
      []).1 sampleEventsFields _ rfl rfl
  · refine ⟨_, rfl, ?_⟩
    exact (c7_field_resolution sampleEventsFields sampleInstallationsFields "events"
      "app1" none (some sampleDateFrom) (some sampleDateTo) []).1
      sampleEventsFields _ rfl rfl

/-- C8: every assembled request has URL baseEndpoint/resource.format where
the format is the export_format kwarg, defaulting to "csv" when absent, and
the decode step returns the raw body as text exactly when the format is
"csv" and hands the body to the JSON parser otherwise. -/
theorem c8_url_and_decode (ef inf : List String) (res appid : String)
    (flds : Option (List String)) (df dt : Option PyDatetime)
    (kw : List (String × String)) (req : AssembledRequest)
    (hok : exportAssemble ef inf res appid flds df dt kw = .ok req) :
    req.url = api_endpoint ++ "/" ++ res ++ "." ++ req.export_format ∧
    req.export_format = (popKw "export_format" "csv" kw).1 ∧
    ("export_format" ∉ kw.map Prod.fst → req.export_format = "csv") ∧
    (∀ body, req.export_format = "csv" →
      decodeResponse req.export_format body = .text body) ∧
    (∀ body, req.export_format ≠ "csv" →
      decodeResponse req.export_format body = .json body) := by
  obtain ⟨regFields, datePart, hlk, rfl, hd⟩ :=
    exportAssemble_ok_shape ef inf res appid flds df dt kw req hok
  refine ⟨rfl, rfl, ?_, ?_, ?_⟩
  · intro h
    show (popKw "export_format" "csv" kw).1 = "csv"
    rw [popKw_not_mem "export_format" "csv" kw h]
  · intro body h
    rw [h]
    rfl
  · intro body h
    simp only [decodeResponse]
    rw [if_neg h]

/-- Witness for C8 at a concrete input: with no export_format kwarg the URL
ends in .csv and a mocked 200 body "a,b\n1,2" decodes to exactly itself as
raw text. -/
theorem c8_url_and_decode_witness :
    ∃ req, exportAssemble sampleEventsFields sampleInstallationsFields "events"
        "app1" none (some sampleDateFrom) (some sampleDateTo) [] = .ok req ∧
      req.url = "https://api.appmetrica.yandex.ru/logs/v1/export/events.csv" ∧
      req.export_format = "csv" ∧
      decodeResponse req.export_format "a,b\n1,2" = .text "a,b\n1,2" := by
  refine ⟨_, rfl, ?_, ?_, ?_⟩
  · exact (c8_url_and_decode sampleEventsFields sampleInstallationsFields "events"
      "app1" none (some sampleDateFrom) (some sampleDateTo) [] _ rfl).1
  · exact (c8_url_and_decode sampleEventsFields sampleInstallationsFields "events"
      "app1" none (some sampleDateFrom) (some sampleDateTo) [] _ rfl).2.2.1
      (by decide)
  · exact (c8_url_and_decode sampleEventsFields sampleInstallationsFields "events"
      "app1" none (some sampleDateFrom) (some sampleDateTo) [] _ rfl).2.2.2.1
      "a,b\n1,2" rfl

/-- C10: the decode branch discriminates only on string equality with "csv":
for any export_format value other than "csv" (for example "xml"), the URL is
built with that value as the path suffix and the response body is
nevertheless handed to the JSON parser. -/
theorem c10_non_csv_json (ef inf : List String) (res appid : String)
    (flds : Option (List String)) (df dt : Option PyDatetime) (fmt : String)
    (kwrest : List (String × String)) (req : AssembledRequest)
    (hfmt : fmt ≠ "csv")
    (hok : exportAssemble ef inf res appid flds df dt
        (("export_format", fmt) :: kwrest) = .ok req) :
    req.export_format = fmt ∧
    req.url = api_endpoint ++ "/" ++ res ++ "." ++ fmt ∧
    ∀ body, decodeResponse req.export_format body = .json body := by
  obtain ⟨regFields, datePart, hlk, rfl, hd⟩ :=
    exportAssemble_ok_shape ef inf res appid flds df dt
      (("export_format", fmt) :: kwrest) req hok
  have hpop : (popKw "export_format" "csv"
      (("export_format", fmt) :: kwrest)).1 = fmt := by
    simp [popKw]
  refine ⟨hpop, ?_, ?_⟩
  · show api_endpoint ++ "/" ++ res ++ "." ++ _ = _
    rw [hpop]
  · intro body
    show decodeResponse (popKw "export_format" "csv"
      (("export_format", fmt) :: kwrest)).1 body = _
    rw [hpop]
    simp [decodeResponse, if_neg hfmt]

/-- Witness for C10 at a concrete input with export_format "xml": the URL
ends in .xml and the body goes to the JSON parser. -/
theorem c10_non_csv_json_witness :
    ∃ req, exportAssemble sampleEventsFields sampleInstallationsFields "events"
        "app1" none (some sampleDateFrom) (some sampleDateTo)
        [("export_format", "xml")] = .ok req ∧
      req.export_format = "xml" ∧
      req.url = "https://api.appmetrica.yandex.ru/logs/v1/export/events.xml" ∧
      decodeResponse req.export_format "payload" = .json "payload" := by
  refine ⟨_, rfl, ?_, ?_, ?_⟩
  · exact (c10_non_csv_json sampleEventsFields sampleInstallationsFields "events"
      "app1" none (some sampleDateFrom) (some sampleDateTo) "xml" [] _
      (by decide) rfl).1
  · exact (c10_non_csv_json sampleEventsFields sampleInstallationsFields "events"
      "app1" none (some sampleDateFrom) (some sampleDateTo) "xml" [] _
      (by decide) rfl).2.1
  · exact (c10_non_csv_json sampleEventsFields sampleInstallationsFields "events"
      "app1" none (some sampleDateFrom) (some sampleDateTo) "xml" [] _
      (by decide) rfl).2.2 "payload"

/-- Membership in the option-derived header set, Cache-Control side: present
exactly when kwargs carries a truthy cache_control entry (kwargs keys being
unique, as Python keyword arguments are). -/
theorem mem_optionHeaders_cc_iff (kw : List (String × String))
    (hnd : (kw.map Prod.fst).Nodup) (v : String) :
    ("Cache-Control", v) ∈ optionHeaders kw ↔ ("cache_control", v) ∈ kw ∧ v ≠ "" := by
  have hnd1 : ((popKw "export_format" "csv" kw).2.map Prod.fst).Nodup :=
    hnd.sublist ((popKw_snd_sublist "export_format" "csv" kw).map Prod.fst)
  rw [optionHeaders, List.mem_append, mem_headerOf_self_iff,
    popKwOpt_fst_some_iff "cache_control" _ hnd1 v,
    mem_popKw_snd_iff "export_format" "csv" "cache_control" v kw (by decide)]
  simp [not_mem_headerOf_of_ne "Cache-Control" "Accept-Encoding" v (by decide)]

/-- Membership in the option-derived header set, Accept-Encoding side. -/
theorem mem_optionHeaders_ae_iff (kw : List (String × String))
    (hnd : (kw.map Prod.fst).Nodup) (v : String) :
    ("Accept-Encoding", v) ∈ optionHeaders kw ↔
      ("accept_encoding", v) ∈ kw ∧ v ≠ "" := by
  have hnd1 : ((popKw "export_format" "csv" kw).2.map Prod.fst).Nodup :=
    hnd.sublist ((popKw_snd_sublist "export_format" "csv" kw).map Prod.fst)
  have hnd2 : ((popKwOpt "cache_control"
      (popKw "export_format" "csv" kw).2).2.map Prod.fst).Nodup :=
    hnd1.sublist
      ((popKwOpt_snd_sublist "cache_control" (popKw "export_format" "csv" kw).2).map
        Prod.fst)
  rw [optionHeaders, List.mem_append, mem_headerOf_self_iff,
    popKwOpt_fst_some_iff "accept_encoding" _ hnd2 v,
    mem_popKwOpt_snd_iff "cache_control" "accept_encoding" v _ (by decide),
    mem_popKw_snd_iff "export_format" "csv" "accept_encoding" v kw (by decide)]
  simp [not_mem_headerOf_of_ne "Accept-Encoding" "Cache-Control" v (by decide)]

/-- The three kwargs entries consumed as format or headers never survive into
the pass-through kwargs (kwargs keys being unique). -/
theorem consumed_not_mem_remainingKwargs (kw : List (String × String))
    (hnd : (kw.map Prod.fst).Nodup) (v : String) :
    ("cache_control", v) ∉ remainingKwargs kw ∧
    ("accept_encoding", v) ∉ remainingKwargs kw ∧
    ("export_format", v) ∉ remainingKwargs kw := by
  have hnd1 : ((popKw "export_format" "csv" kw).2.map Prod.fst).Nodup :=
    hnd.sublist ((popKw_snd_sublist "export_format" "csv" kw).map Prod.fst)
  have hnd2 : ((popKwOpt "cache_control"
      (popKw "export_format" "csv" kw).2).2.map Prod.fst).Nodup :=
    hnd1.sublist
      ((popKwOpt_snd_sublist "cache_control" (popKw "export_format" "csv" kw).2).map
        Prod.fst)
  refine ⟨?_, ?_, ?_⟩
  · intro hmem
    rw [remainingKwargs,
      mem_popKwOpt_snd_iff "accept_encoding" "cache_control" v _ (by decide)] at hmem
    exact popKwOpt_key_not_mem_snd "cache_control" _ hnd1 v hmem
  · intro hmem
    rw [remainingKwargs] at hmem
    exact popKwOpt_key_not_mem_snd "accept_encoding" _ hnd2 v hmem
  · intro hmem
    rw [remainingKwargs,
      mem_popKwOpt_snd_iff "accept_encoding" "export_format" v _ (by decide),
      mem_popKwOpt_snd_iff "cache_control" "export_format" v _ (by decide)] at hmem
    exact popKw_key_not_mem_snd "export_format" "csv" kw hnd v hmem

/-- A pair with a key different from application_id, fields, date_since and
date_until, and absent from the pass-through kwargs, is not among the
assembled query parameters. -/
theorem key_not_mem_assembled_params (appid fieldsStr : String)
    (rem datePart : List (String × String)) (k v : String)
    (hk1 : k ≠ "application_id") (hk2 : k ≠ "fields")
    (hrem : (k, v) ∉ rem)
    (hdp : datePart = [] ∨ ∃ d1 d2, datePart = [("date_since", d1), ("date_until", d2)])
    (hk3 : k ≠ "date_since") (hk4 : k ≠ "date_until") :
    (k, v) ∉ ("application_id", appid) :: ("fields", fieldsStr) ::
      (rem ++ datePart) := by
  intro hmem
  rcases List.mem_cons.mp hmem with h | hmem2
  · exact hk1 (congrArg Prod.fst h)
  rcases List.mem_cons.mp hmem2 with h | hmem3
  · exact hk2 (congrArg Prod.fst h)
  rcases List.mem_append.mp hmem3 with h | h
  · exact hrem h
  · rcases hdp with rfl | ⟨d1, d2, rfl⟩
    · exact List.not_mem_nil _ h
    · rcases List.mem_cons.mp h with h2 | h2
      · exact hk3 (congrArg Prod.fst h2)
      · rcases List.mem_cons.mp h2 with h3 | h3
        · exact hk4 (congrArg Prod.fst h3)
        · exact List.not_mem_nil _ h3

/-- C9 as stated is false on the code: supplying the cache_control option
with the (falsy) empty string yields a request whose dispatched header set
has no Cache-Control entry at all, because the walrus-if tests Python
truthiness, not presence. -/
theorem c9_falsy_option_counterexample :
    exportAssemble sampleEventsFields sampleInstallationsFields "events" "app1" none
      (some sampleDateFrom) (some sampleDateTo) [("cache_control", "")] =
      .ok ⟨"https://api.appmetrica.yandex.ru/logs/v1/export/events.csv",
           [("application_id", "app1"),
            ("fields", "event_name,event_datetime,appmetrica_device_id"),
            ("date_since", "2024-01-02 03:04:05"),
            ("date_until", "2024-01-31 23:59:59")],
           [], "csv"⟩ ∧
    make_request_headers "tok" [] = [("Authorization", "OAuth tok")] := ⟨rfl, rfl⟩

/-- C9 (amended): every dispatched request carries Authorization: OAuth
followed by the stored token; it carries a Cache-Control (resp.
Accept-Encoding) header with value v exactly when the caller supplied
cache_control (resp. accept_encoding) with the truthy, i.e. non-empty, value
v; and the options consumed as headers or format never appear among the
query parameters, truthy or not. -/
theorem c9_headers (tok : String) (ef inf : List String) (res appid : String)
    (flds : Option (List String)) (df dt : Option PyDatetime)
    (kw : List (String × String)) (req : AssembledRequest)
    (hnd : (kw.map Prod.fst).Nodup)
    (hok : exportAssemble ef inf res appid flds df dt kw = .ok req) :
    ("Authorization", "OAuth " ++ tok) ∈ make_request_headers tok req.headers ∧
    (∀ v, ("Cache-Control", v) ∈ make_request_headers tok req.headers ↔
      ("cache_control", v) ∈ kw ∧ v ≠ "") ∧
    (∀ v, ("Accept-Encoding", v) ∈ make_request_headers tok req.headers ↔
      ("accept_encoding", v) ∈ kw ∧ v ≠ "") ∧
    (∀ v, ("cache_control", v) ∉ req.params ∧
      ("accept_encoding", v) ∉ req.params ∧ ("export_format", v) ∉ req.params) := by
  obtain ⟨regFields, datePart, hlk, rfl, hd⟩ :=
    exportAssemble_ok_shape ef inf res appid flds df dt kw req hok
  have hdp : datePart = [] ∨
      ∃ d1 d2, datePart = [("date_since", d1), ("date_until", d2)] := by
    rcases hd with rfl | ⟨d1, d2, h1, h2, rfl⟩
    · exact Or.inl rfl
    · exact Or.inr ⟨strftime d1, strftime d2, rfl⟩
  refine ⟨?_, ?_, ?_, ?_⟩
  · simp [make_request_headers]
  · intro v
    show ("Cache-Control", v) ∈ make_request_headers tok (optionHeaders kw) ↔ _
    have hne : ("Cache-Control", v) ≠ ("Authorization", "OAuth " ++ tok) := by
      intro h
      have h2 : "Cache-Control" = "Authorization" := congrArg Prod.fst h
      exact absurd h2 (by decide)
    simp only [make_request_headers, List.mem_append, List.mem_singleton,
      mem_optionHeaders_cc_iff kw hnd v]
    simp [hne]
  · intro v
    show ("Accept-Encoding", v) ∈ make_request_headers tok (optionHeaders kw) ↔ _
    have hne : ("Accept-Encoding", v) ≠ ("Authorization", "OAuth " ++ tok) := by
      intro h
      have h2 : "Accept-Encoding" = "Authorization" := congrArg Prod.fst h
      exact absurd h2 (by decide)
    simp only [make_request_headers, List.mem_append, List.mem_singleton,
      mem_optionHeaders_ae_iff kw hnd v]
    simp [hne]
  · intro v
    have hrem := consumed_not_mem_remainingKwargs kw hnd v
    refine ⟨?_, ?_, ?_⟩
    · exact key_not_mem_assembled_params appid _ (remainingKwargs kw) datePart
        "cache_control" v (by decide) (by decide) hrem.1 hdp (by decide) (by decide)
    · exact key_not_mem_assembled_params appid _ (remainingKwargs kw) datePart
        "accept_encoding" v (by decide) (by decide) hrem.2.1 hdp (by decide)
        (by decide)
    · exact key_not_mem_assembled_params appid _ (remainingKwargs kw) datePart
        "export_format" v (by decide) (by decide) hrem.2.2 hdp (by decide)
        (by decide)

/-- Witness for C9 (amended) at a concrete input: a truthy cache_control is
forwarded as a Cache-Control header, the Authorization header is always
present, and the consumed option is absent from the query parameters. -/
theorem c9_headers_witness :
    ∃ req, exportAssemble sampleEventsFields sampleInstallationsFields "events"
        "app1" none (some sampleDateFrom) (some sampleDateTo)
        [("cache_control", "no-cache"), ("limit", "10")] = .ok req ∧
      ("Authorization", "OAuth token123") ∈
        make_request_headers "token123" req.headers ∧
      (("Cache-Control", "no-cache") ∈ make_request_headers "token123" req.headers ↔
        ("cache_control", "no-cache") ∈
          ([("cache_control", "no-cache"), ("limit", "10")] :
            List (String × String)) ∧ "no-cache" ≠ "") ∧
      ("cache_control", "no-cache") ∉ req.params := by
  refine ⟨_, rfl, ?_, ?_, ?_⟩
  · exact (c9_headers "token123" sampleEventsFields sampleInstallationsFields
      "events" "app1" none (some sampleDateFrom) (some sampleDateTo)
      [("cache_control", "no-cache"), ("limit", "10")] _ (by decide) rfl).1
  · exact (c9_headers "token123" sampleEventsFields sampleInstallationsFields
      "events" "app1" none (some sampleDateFrom) (some sampleDateTo)
      [("cache_control", "no-cache"), ("limit", "10")] _ (by decide) rfl).2.1
      "no-cache"
  · exact ((c9_headers "token123" sampleEventsFields sampleInstallationsFields
      "events" "app1" none (some sampleDateFrom) (some sampleDateTo)
      [("cache_control", "no-cache"), ("limit", "10")] _ (by decide) rfl).2.2.2
      "no-cache").1

end AppmetricaLogsApi
